import Mathlib

/-!
Verification of the iTerm2 remote-control protocol client (Rust crate
`iterm2-api`). The embedding below translates `src/error.rs`, `src/auth.rs`
and `src/connection.rs` into Lean. The protobuf schema types and the codec
are generated at build time from `proto/api.proto` and are not part of the
checked-in sources; those pieces are modelled from the spec and are marked
as such in their doc comments.
-/

namespace ITerm2

/-- The error taxonomy of `src/error.rs` (`enum Error`). Underlying
third-party error payloads are modelled as their rendered message strings. -/
inductive Error where
  | webSocket (e : String)
  | Io (e : String)
  | protobuf (e : String)
  | url (e : String)
  | utf8 (e : String)
  | authentication (m : String)
  | connection (m : String)
  | api (m : String)
deriving DecidableEq, Repr

/-- `SessionSummary` from the generated schema: an opaque session handle.
Modelled from the spec: the generated code is not in src/; the spec gives
`SessionSummary = \x7bunique_identifier: string\x7d`. -/
structure SessionSummary where
  unique_identifier : String
deriving DecidableEq, Repr

/-- Modelled from the spec: a Tab groups session summaries (generated
schema type, not in src/). -/
structure Tab where
  sessions : List SessionSummary
deriving DecidableEq, Repr

/-- Modelled from the spec: `Window = \x7bwindow_id: string, tabs: ordered
sequence of Tab\x7d` (generated schema type, not in src/). -/
structure Window where
  window_id : String
  tabs : List Tab
deriving DecidableEq, Repr

/-- Modelled from the spec: the status enumeration of the create-tab
response, OK plus named failure codes (generated from `proto/api.proto`,
not in src/). -/
inductive CreateTabStatus where
  | OK
  | INVALID_PROFILE_NAME
  | INVALID_WINDOW_ID
deriving DecidableEq, Repr

/-- The string the Rust debug formatter prints for a `CreateTabStatus`
value: the bare variant name. -/
def createTabStatusName : CreateTabStatus → String
  | .OK => "OK"
  | .INVALID_PROFILE_NAME => "INVALID_PROFILE_NAME"
  | .INVALID_WINDOW_ID => "INVALID_WINDOW_ID"

/-- Modelled from the spec: the status enumeration of the send-text
response (generated from `proto/api.proto`, not in src/). -/
inductive SendTextStatus where
  | OK
  | SESSION_NOT_FOUND
deriving DecidableEq, Repr

/-- The string the Rust debug formatter prints for a `SendTextStatus`
value: the bare variant name. -/
def sendTextStatusName : SendTextStatus → String
  | .OK => "OK"
  | .SESSION_NOT_FOUND => "SESSION_NOT_FOUND"

/-- Modelled from the spec: the create-tab response variant, carrying a
status and, on success, the server-assigned session id. -/
structure CreateTabResponse where
  status : CreateTabStatus
  session_id : String
deriving DecidableEq, Repr

/-- Modelled from the spec: the send-text response variant, carrying only
a status. -/
structure SendTextResponse where
  status : SendTextStatus
deriving DecidableEq, Repr

/-- Modelled from the spec: the list-sessions response variant; it has no
status field, only windows and buried sessions. -/
structure ListSessionsResponse where
  windows : List Window
  buried_sessions : List SessionSummary
deriving DecidableEq, Repr

/-- Modelled from the spec: the payload of a server-originated message is
a closed tagged union mirroring the commands; the source probes it with
has-variant checks, which correspond to matching on this sum. -/
inductive ServerPayload where
  | create_tab_response (r : CreateTabResponse)
  | send_text_response (r : SendTextResponse)
  | list_sessions_response (r : ListSessionsResponse)
  | notSet
deriving DecidableEq, Repr

/-- Modelled from the spec: the envelope of one server-to-client frame. -/
structure ServerOriginatedMessage where
  payload : ServerPayload
deriving DecidableEq, Repr

/-- Modelled from the spec: `CreateTab` request —
`\x7bprofile_name: optional string, window_id: optional string\x7d`;
omitting window_id signals a new window. -/
structure CreateTabRequest where
  profile_name : Option String
  window_id : Option String
deriving DecidableEq, Repr

/-- Modelled from the spec: `SendText` request —
`\x7bsession_id: string, text: string\x7d`. -/
structure SendTextRequest where
  session : String
  text : String
deriving DecidableEq, Repr

/-- Modelled from the spec: `ListSessions\x7b\x7d` carries no fields. -/
structure ListSessionsRequest where
deriving DecidableEq, Repr

/-- Modelled from the spec: the payload of a client-originated message. -/
inductive ClientPayload where
  | create_tab_request (r : CreateTabRequest)
  | send_text_request (r : SendTextRequest)
  | list_sessions_request (r : ListSessionsRequest)
  | notSet
deriving DecidableEq, Repr

/-- Modelled from the spec: the envelope of one client-to-server frame. -/
structure ClientOriginatedMessage where
  payload : ClientPayload
deriving DecidableEq, Repr

/-! ### The schema codec

Modelled from the spec: the codec is generated from `proto/api.proto` and
is not in src/. The spec fixes its contract — `encode` serializes the
tagged value into one opaque byte sequence, `decode` parses a byte
sequence into a Response and fails on any nonconforming input (truncated,
wrong tag, corrupt field) with a diagnostic, never yielding a default
value. The concrete binary layout below is a faithful model of that
contract, not of the protobuf wire format. -/

/-- One code unit of a serialized string: the Unicode scalar value of a
character. -/
def encodeChars : List Char → List Nat :=
  fun cs => cs.map Char.toNat

/-- Serialize a string as a count followed by its scalar values. -/
def encodeString (s : String) : List Nat :=
  s.data.length :: encodeChars s.data

/-- Read back `n` characters, rejecting any code unit that is not a valid
Unicode scalar value. -/
def decodeChars : Nat → List Nat → Option (List Char × List Nat)
  | 0, rest => some ([], rest)
  | _ + 1, [] => none
  | n + 1, c :: rest =>
    if c.isValidChar then
      match decodeChars n rest with
      | some (cs, r) => some (Char.ofNat c :: cs, r)
      | none => none
    else none

/-- Parse a count-prefixed string field. -/
def parseString : List Nat → Except String (String × List Nat)
  | [] => .error "truncated string field"
  | n :: rest =>
    match decodeChars n rest with
    | some (cs, r) => .ok (String.mk cs, r)
    | none => .error "corrupt string field"

/-- Parse one code unit. -/
def parseUnit : List Nat → Except String (Nat × List Nat)
  | [] => .error "truncated field"
  | b :: r => .ok (b, r)

/-- Parse exactly `n` repetitions of an element parser. -/
def parseN {α : Type} (p : List Nat → Except String (α × List Nat)) :
    Nat → List Nat → Except String (List α × List Nat)
  | 0, rest => .ok ([], rest)
  | n + 1, rest => do
    let (a, r1) ← p rest
    let (as, r2) ← parseN p n r1
    .ok (a :: as, r2)

/-- Parse a count-prefixed list. -/
def parseList {α : Type} (p : List Nat → Except String (α × List Nat)) :
    List Nat → Except String (List α × List Nat)
  | [] => .error "truncated list field"
  | n :: rest => parseN p n rest

/-- Parse one session summary. -/
def parseSessionSummary (bs : List Nat) :
    Except String (SessionSummary × List Nat) := do
  let (uid, r) ← parseString bs
  .ok (⟨uid⟩, r)

/-- Parse one tab. -/
def parseTab (bs : List Nat) : Except String (Tab × List Nat) := do
  let (ss, r) ← parseList parseSessionSummary bs
  .ok (⟨ss⟩, r)

/-- Parse one window. -/
def parseWindow (bs : List Nat) : Except String (Window × List Nat) := do
  let (wid, r1) ← parseString bs
  let (ts, r2) ← parseList parseTab r1
  .ok (⟨wid, ts⟩, r2)

/-- Decode a create-tab status code. -/
def parseCreateTabStatus (bs : List Nat) :
    Except String (CreateTabStatus × List Nat) := do
  let (n, r) ← parseUnit bs
  match n with
  | 0 => .ok (.OK, r)
  | 1 => .ok (.INVALID_PROFILE_NAME, r)
  | 2 => .ok (.INVALID_WINDOW_ID, r)
  | _ => .error "corrupt create tab status"

/-- Decode a send-text status code. -/
def parseSendTextStatus (bs : List Nat) :
    Except String (SendTextStatus × List Nat) := do
  let (n, r) ← parseUnit bs
  match n with
  | 0 => .ok (.OK, r)
  | 1 => .ok (.SESSION_NOT_FOUND, r)
  | _ => .error "corrupt send text status"

/-- Modelled from the spec: `decode(bytes) -> Response`. A leading tag
selects the variant; any truncated, unknown-tag or corrupt-field input
fails with a diagnostic. Mirrors `ServerOriginatedMessage::parse_from_bytes`
of the generated codec. -/
def parse_from_bytes (data : List Nat) : Except String ServerOriginatedMessage :=
  match data with
  | [] => .error "truncated message"
  | 0 :: rest =>
    if rest = [] then .ok ⟨.notSet⟩ else .error "trailing bytes"
  | 1 :: rest => do
    let (st, r1) ← parseCreateTabStatus rest
    let (sid, r2) ← parseString r1
    if r2 = [] then .ok ⟨.create_tab_response ⟨st, sid⟩⟩
    else .error "trailing bytes"
  | 2 :: rest => do
    let (st, r1) ← parseSendTextStatus rest
    if r1 = [] then .ok ⟨.send_text_response ⟨st⟩⟩
    else .error "trailing bytes"
  | 3 :: rest => do
    let (ws, r1) ← parseList parseWindow rest
    let (bur, r2) ← parseList parseSessionSummary r1
    if r2 = [] then .ok ⟨.list_sessions_response ⟨ws, bur⟩⟩
    else .error "trailing bytes"
  | _ => .error "unknown message tag"

/-- Serialize an optional string field. -/
def encodeOptString : Option String → List Nat
  | none => [0]
  | some s => 1 :: encodeString s

/-- Modelled from the spec: `encode(Command) -> bytes`. Mirrors
`ClientOriginatedMessage::write_to_vec` of the generated codec. -/
def write_to_vec (m : ClientOriginatedMessage) : List Nat :=
  match m.payload with
  | .create_tab_request r =>
    1 :: (encodeOptString r.profile_name ++ encodeOptString r.window_id)
  | .send_text_request r => 2 :: (encodeString r.session ++ encodeString r.text)
  | .list_sessions_request _ => [3]
  | .notSet => [0]

/-! ### The connection (`src/connection.rs`)

The websocket transport of `tokio-tungstenite` is embedded as a finite
list of remaining inbound events: `next()` pops the head and yields
`None` once the list is exhausted, so an exhausted transport stays
exhausted. Outbound writes are likewise driven by the transport: each
`send` consumes the next prescribed outcome, and a rejected write (as
on a dead or broken socket) surfaces as the websocket error. Frames
written by the client are accumulated in `sent`. -/

/-- The inbound websocket message variants of the transport library
(`tungstenite::Message`), as matched by `receive_message`. -/
inductive WsMessage where
  | binary (data : List Nat)
  | text (s : String)
  | ping (data : List Nat)
  | pong (data : List Nat)
  | close
deriving DecidableEq, Repr

/-- The constructor label the transport library prints first when a
message is debug-formatted. -/
def wsMessageTypeName : WsMessage → String
  | .binary _ => "Binary"
  | .text _ => "Text"
  | .ping _ => "Ping"
  | .pong _ => "Pong"
  | .close => "Close"

/-- The debug rendering of an inbound message, as interpolated into the
`Unexpected message type` error: the constructor label followed by its
payload. -/
def wsMessageDebug (m : WsMessage) : String :=
  match m with
  | .binary data => "Binary(" ++ toString data ++ ")"
  | .text s => "Text(" ++ s ++ ")"
  | .ping data => "Ping(" ++ toString data ++ ")"
  | .pong data => "Pong(" ++ toString data ++ ")"
  | .close => "Close(None)"

/-- One step of the inbound stream: `Some(Ok(msg))` or `Some(Err(e))`;
end-of-stream (`None`) is the exhaustion of the event list. -/
inductive WsEvent where
  | msg (m : WsMessage)
  | err (e : String)
deriving DecidableEq, Repr

/-- The state of an `ITerm2Connection`: the remaining inbound events of
its websocket stream, the outcomes the transport will give to the next
outbound writes (`none` is an accepted write, `some e` a write the
transport rejects with error `e`, as a dead or broken socket does; an
exhausted list accepts), and the binary frames written so far. -/
structure Conn where
  inbound : List WsEvent
  writes : List (Option String)
  sent : List (List Nat)
deriving DecidableEq, Repr

/-- `ITerm2Connection::send_message`: serialize the message, then write
one binary frame. Serialization into a growable buffer follows the
total encode contract of the modelled codec, so its error path is
vacuous here; the websocket write consumes the next prescribed
transport outcome, and a rejected write propagates as the websocket
error. -/
def send_message (c : Conn) (message : ClientOriginatedMessage) :
    Except Error Unit × Conn :=
  let bytes := write_to_vec message
  match c.writes with
  | some e :: rest => (.error (.webSocket e), { c with writes := rest })
  | none :: rest =>
    (.ok (), { c with writes := rest, sent := c.sent ++ [bytes] })
  | [] => (.ok (), { c with sent := c.sent ++ [bytes] })

/-- `ITerm2Connection::receive_message`: pop the next inbound event; a
binary frame is decoded (a parse failure propagates as the protobuf
error), any other message kind is a connection error naming it, a stream
error propagates as a websocket error, and end-of-stream is
`Connection("Connection closed")`. -/
def receive_message (c : Conn) : Except Error ServerOriginatedMessage × Conn :=
  match c.inbound with
  | [] => (.error (.connection "Connection closed"), c)
  | WsEvent.msg (WsMessage.binary data) :: rest =>
    match parse_from_bytes data with
    | .ok message => (.ok message, { c with inbound := rest })
    | .error e => (.error (.protobuf e), { c with inbound := rest })
  | WsEvent.msg m :: rest =>
    (.error (.connection ("Unexpected message type: " ++ wsMessageDebug m)),
      { c with inbound := rest })
  | WsEvent.err e :: rest => (.error (.webSocket e), { c with inbound := rest })

/-- `ITerm2Connection::create_window`: send a create-tab request with no
window id, then require a create-tab response; OK yields the session
summary, any other status yields an API error naming it, a wrong tag
yields an API error. -/
def create_window (c : Conn) (profile_name : Option String) :
    Except Error SessionSummary × Conn :=
  let request : CreateTabRequest := { profile_name := profile_name, window_id := none }
  let message : ClientOriginatedMessage := ⟨.create_tab_request request⟩
  match send_message c message with
  | (.error e, c1) => (.error e, c1)
  | (.ok _, c1) =>
    match receive_message c1 with
    | (.error e, c2) => (.error e, c2)
    | (.ok response, c2) =>
      match response.payload with
      | .create_tab_response create_response =>
        if create_response.status = CreateTabStatus.OK then
          (.ok ⟨create_response.session_id⟩, c2)
        else
          (.error (.api ("Create window failed: " ++
            createTabStatusName create_response.status)), c2)
      | _ => (.error (.api "Expected create tab response"), c2)

/-- `ITerm2Connection::create_tab`: as `create_window` but the window id
is mandatory and populated. -/
def create_tab (c : Conn) (profile_name : Option String) (window_id : String) :
    Except Error SessionSummary × Conn :=
  let request : CreateTabRequest :=
    { profile_name := profile_name, window_id := some window_id }
  let message : ClientOriginatedMessage := ⟨.create_tab_request request⟩
  match send_message c message with
  | (.error e, c1) => (.error e, c1)
  | (.ok _, c1) =>
    match receive_message c1 with
    | (.error e, c2) => (.error e, c2)
    | (.ok response, c2) =>
      match response.payload with
      | .create_tab_response create_response =>
        if create_response.status = CreateTabStatus.OK then
          (.ok ⟨create_response.session_id⟩, c2)
        else
          (.error (.api ("Create tab failed: " ++
            createTabStatusName create_response.status)), c2)
      | _ => (.error (.api "Expected create tab response"), c2)

/-- `ITerm2Connection::send_text`: send the text verbatim to a session
and require a send-text response with status OK. -/
def send_text (c : Conn) (session_id : String) (text : String) :
    Except Error Unit × Conn :=
  let request : SendTextRequest := { session := session_id, text := text }
  let message : ClientOriginatedMessage := ⟨.send_text_request request⟩
  match send_message c message with
  | (.error e, c1) => (.error e, c1)
  | (.ok _, c1) =>
    match receive_message c1 with
    | (.error e, c2) => (.error e, c2)
    | (.ok response, c2) =>
      match response.payload with
      | .send_text_response send_response =>
        if send_response.status = SendTextStatus.OK then
          (.ok (), c2)
        else
          (.error (.api ("Send text failed: " ++
            sendTextStatusName send_response.status)), c2)
      | _ => (.error (.api "Expected send text response"), c2)

/-- `ITerm2Connection::list_sessions`: require a list-sessions response;
the loop over its windows contributes nothing and the buried sessions
are appended to the empty accumulator. -/
def list_sessions (c : Conn) : Except Error (List SessionSummary) × Conn :=
  let request : ListSessionsRequest := {}
  let message : ClientOriginatedMessage := ⟨.list_sessions_request request⟩
  match send_message c message with
  | (.error e, c1) => (.error e, c1)
  | (.ok _, c1) =>
    match receive_message c1 with
    | (.error e, c2) => (.error e, c2)
    | (.ok response, c2) =>
      match response.payload with
      | .list_sessions_response list_response =>
        let sessions : List SessionSummary := []
        (.ok (sessions ++ list_response.buried_sessions), c2)
      | _ => (.error (.api "Expected list sessions response"), c2)

/-- `ITerm2Connection::get_windows`: same request as `list_sessions`,
returning the window list of the response. -/
def get_windows (c : Conn) : Except Error (List Window) × Conn :=
  let request : ListSessionsRequest := {}
  let message : ClientOriginatedMessage := ⟨.list_sessions_request request⟩
  match send_message c message with
  | (.error e, c1) => (.error e, c1)
  | (.ok _, c1) =>
    match receive_message c1 with
    | (.error e, c2) => (.error e, c2)
    | (.ok response, c2) =>
      match response.payload with
      | .list_sessions_response list_response =>
        (.ok list_response.windows, c2)
      | _ => (.error (.api "Expected list sessions response"), c2)

/-! ### Credentials (`src/auth.rs`) -/

/-- `Authenticator`: the ambient cookie and key, read once from the
environment at construction. -/
structure Authenticator where
  cookie : Option String
  key : Option String
deriving DecidableEq, Repr

/-- `Authenticator::new`: capture the two environment variables
(`ITERM2_COOKIE`, `ITERM2_KEY`), passed here as the ambient environment. -/
def Authenticator.new (envCookie envKey : Option String) : Authenticator :=
  { cookie := envCookie, key := envKey }

/-- `Authenticator::has_credentials`. -/
def Authenticator.has_credentials (a : Authenticator) : Bool :=
  a.cookie.isSome || a.key.isSome

/-- `Authenticator::get_auth_header`: a cookie renders as the
cookie-style header, otherwise a key renders as the key-style header. -/
def Authenticator.get_auth_header (a : Authenticator) : Option String :=
  match a.cookie with
  | some cookie => some ("iTerm2-Auth-Cookie: " ++ cookie)
  | none =>
    match a.key with
    | some key => some ("iTerm2-Auth-Key: " ++ key)
    | none => none

/-! ### Connecting (`ITerm2Connection::connect`)

The ambient world of one connection attempt: whether the socket path
exists, the outcome of the stream connect, and the outcome of the
handshake (its response status and the reason phrase the status table
yields for it). The observable side effects of the attempt are recorded
as a trace of actions. -/

/-- The endpoint path: the home directory (empty when absent, as
`unwrap_or_default` yields) joined with the fixed socket location. -/
def socket_path : Option String → String
  | none => "Library/Application Support/iTerm2/private/socket"
  | some h => h ++ "/Library/Application Support/iTerm2/private/socket"

/-- The headers of the upgrade request `connect` builds, in source
order. The request is a constant: it is built from no other input. -/
def connectRequestHeaders : List (String × String) :=
  [("Host", "localhost"),
   ("Upgrade", "websocket"),
   ("Connection", "Upgrade"),
   ("Sec-WebSocket-Key", "dGhlIHNhbXBsZSBub25jZQ=="),
   ("Sec-WebSocket-Version", "13"),
   ("Sec-WebSocket-Protocol", "api.iterm2.com"),
   ("Origin", "ws://localhost/"),
   ("x-iterm2-library-version", "rust 1.0")]

/-- The observable actions of a connection attempt: probing the endpoint
path, connecting the stream, and writing the handshake request with the
headers it carries. -/
inductive ConnectAction where
  | statEndpoint
  | unixConnect
  | handshakeWrite (headers : List (String × String))
deriving DecidableEq, Repr

/-- The ambient inputs of one connection attempt, including the inbound
events and write outcomes of the stream behind a successful handshake. -/
structure ConnectWorld where
  home_dir : Option String
  socket_exists : Bool
  unix_connect : Except String Unit
  handshake : Except String (Nat × Option String)
  inbound : List WsEvent
  writes : List (Option String)
deriving Repr

/-- The rendering of an HTTP status under the display formatter of the
transport stack: the numeric code followed by the canonical reason of
the status table, with its fixed fallback. -/
def statusCodeDisplay (status : Nat) (canonicalReason : Option String) : String :=
  toString status ++ " " ++ canonicalReason.getD "<unknown status code>"

/-- `ITerm2Connection::connect`: fail before any connect or write when
the endpoint path is missing; wrap a stream-connect failure; perform the
handshake and require response status 101, otherwise fail with the
status, its reason phrase (or the fixed fallback) and the guidance text;
on success the negotiated stream becomes the connection. -/
def connect (w : ConnectWorld) : Except Error Conn × List ConnectAction :=
  if w.socket_exists = false then
    (.error (.connection ("iTerm2 Unix domain socket not found at: " ++
      socket_path w.home_dir ++
      ". iTerm2 must be running with API server enabled.")),
     [.statEndpoint])
  else
    match w.unix_connect with
    | .error e =>
      (.error (.connection ("Failed to connect to Unix domain socket: " ++ e)),
       [.statEndpoint, .unixConnect])
    | .ok _ =>
      match w.handshake with
      | .error e =>
        (.error (.connection ("WebSocket handshake failed: " ++ e)),
         [.statEndpoint, .unixConnect, .handshakeWrite connectRequestHeaders])
      | .ok (status, reason) =>
        if status ≠ 101 then
          (.error (.connection ("WebSocket handshake failed with status " ++
            statusCodeDisplay status reason ++ ": " ++
            reason.getD "Unknown reason" ++
            ". Make sure iTerm2 has \x27Allow all apps to connect\x27 enabled in Settings > General > Magic, or run this script from iTerm2.")),
           [.statEndpoint, .unixConnect, .handshakeWrite connectRequestHeaders])
        else
          (.ok { inbound := w.inbound, writes := w.writes, sent := [] },
           [.statEndpoint, .unixConnect, .handshakeWrite connectRequestHeaders])

/-! ### Helpers for the verification -/

instance {ε α : Type} [DecidableEq ε] [DecidableEq α] : DecidableEq (Except ε α) := fun a b =>
  match a, b with
  | .ok x, .ok y =>
    if h : x = y then .isTrue (congrArg Except.ok h)
    else .isFalse (fun k => h (Except.ok.inj k))
  | .error x, .error y =>
    if h : x = y then .isTrue (congrArg Except.error h)
    else .isFalse (fun k => h (Except.error.inj k))
  | .ok _, .error _ => .isFalse (fun k => Except.noConfusion k)
  | .error _, .ok _ => .isFalse (fun k => Except.noConfusion k)

/-- The string `sub` occurs verbatim inside `s`. -/
def appearsIn (sub s : String) : Prop := ∃ a b, s = a ++ sub ++ b

/-! ### The claims -/

/-- C1: for every Command variant, if the decoded Response is the
matching variant with status OK, the typed operation returns the
expected success value; in particular a create-tab response with status
OK and session id `s` makes `create_window` return the session summary
with unique identifier `s`. -/
theorem c1_ok_status_roundtrip (c : Conn) (data : List Nat) (rest : List WsEvent)
    (hin : c.inbound = WsEvent.msg (WsMessage.binary data) :: rest)
    (hw : c.writes = []) :
    (∀ (r : CreateTabResponse) (profile : Option String),
        parse_from_bytes data = .ok ⟨.create_tab_response r⟩ →
        r.status = CreateTabStatus.OK →
        (create_window c profile).1 = .ok ⟨r.session_id⟩) ∧
    (∀ (r : CreateTabResponse) (profile : Option String) (wid : String),
        parse_from_bytes data = .ok ⟨.create_tab_response r⟩ →
        r.status = CreateTabStatus.OK →
        (create_tab c profile wid).1 = .ok ⟨r.session_id⟩) ∧
    (∀ (r : SendTextResponse) (sid txt : String),
        parse_from_bytes data = .ok ⟨.send_text_response r⟩ →
        r.status = SendTextStatus.OK →
        (send_text c sid txt).1 = .ok ()) := by
  obtain ⟨inb, writes, sent⟩ := c
  simp only at hin hw
  subst hin
  subst hw
  refine ⟨fun r profile hparse hstatus => ?_,
    fun r profile wid hparse hstatus => ?_, fun r sid txt hparse hstatus => ?_⟩
  · simp [create_window, send_message, receive_message, hparse, hstatus]
  · simp [create_tab, send_message, receive_message, hparse, hstatus]
  · simp [send_text, send_message, receive_message, hparse, hstatus]

/-- C1 witness: a concrete create-tab frame with status OK and session
id `a` makes `create_window` return that session summary. -/
theorem c1_ok_status_roundtrip_witness :
    (create_window ⟨[.msg (.binary [1, 0, 1, 97])], [], []⟩ none).1 = .ok ⟨"a"⟩ :=
  (c1_ok_status_roundtrip ⟨[.msg (.binary [1, 0, 1, 97])], [], []⟩
    [1, 0, 1, 97] [] rfl rfl).1 ⟨.OK, "a"⟩ none rfl rfl

/-- C2: for every operation with a status-bearing response, a matching
response whose status is not OK yields an API error whose message
contains the raw status value, never a success value. -/
theorem c2_non_ok_status_api_error (c : Conn) (data : List Nat) (rest : List WsEvent)
    (hin : c.inbound = WsEvent.msg (WsMessage.binary data) :: rest)
    (hw : c.writes = []) :
    (∀ (r : CreateTabResponse) (profile : Option String),
        parse_from_bytes data = .ok ⟨.create_tab_response r⟩ →
        r.status ≠ CreateTabStatus.OK →
        ∃ msg, (create_window c profile).1 = .error (.api msg) ∧
          appearsIn (createTabStatusName r.status) msg) ∧
    (∀ (r : CreateTabResponse) (profile : Option String) (wid : String),
        parse_from_bytes data = .ok ⟨.create_tab_response r⟩ →
        r.status ≠ CreateTabStatus.OK →
        ∃ msg, (create_tab c profile wid).1 = .error (.api msg) ∧
          appearsIn (createTabStatusName r.status) msg) ∧
    (∀ (r : SendTextResponse) (sid txt : String),
        parse_from_bytes data = .ok ⟨.send_text_response r⟩ →
        r.status ≠ SendTextStatus.OK →
        ∃ msg, (send_text c sid txt).1 = .error (.api msg) ∧
          appearsIn (sendTextStatusName r.status) msg) := by
  obtain ⟨inb, writes, sent⟩ := c
  simp only at hin hw
  subst hin
  subst hw
  refine ⟨fun r profile hparse hstatus => ?_,
    fun r profile wid hparse hstatus => ?_, fun r sid txt hparse hstatus => ?_⟩
  · refine ⟨"Create window failed: " ++ createTabStatusName r.status, ?_,
      "Create window failed: ", "", by simp⟩
    simp [create_window, send_message, receive_message, hparse, hstatus]
  · refine ⟨"Create tab failed: " ++ createTabStatusName r.status, ?_,
      "Create tab failed: ", "", by simp⟩
    simp [create_tab, send_message, receive_message, hparse, hstatus]
  · refine ⟨"Send text failed: " ++ sendTextStatusName r.status, ?_,
      "Send text failed: ", "", by simp⟩
    simp [send_text, send_message, receive_message, hparse, hstatus]

/-- C2 witness: a concrete create-tab frame with status
INVALID_PROFILE_NAME makes `create_window` return an API error whose
message contains that status name. -/
theorem c2_non_ok_status_api_error_witness :
    ∃ msg, (create_window ⟨[.msg (.binary [1, 1, 0])], [], []⟩ (some "bogus")).1 =
      .error (.api msg) ∧ appearsIn "INVALID_PROFILE_NAME" msg :=
  (c2_non_ok_status_api_error ⟨[.msg (.binary [1, 1, 0])], [], []⟩ [1, 1, 0] []
    rfl rfl).1 ⟨.INVALID_PROFILE_NAME, ""⟩ (some "bogus") rfl (by decide)

/-- C3 counterexample: on a decodable create-tab response, `send_text`
returns the API-kind error with message `Expected send text response`;
it does not return an error carrying the message
`expected send-text response` claimed for a distinct protocol-error
kind, which the error taxonomy of the source does not have. -/
theorem c3_tag_mismatch_counterexample :
    (send_text ⟨[.msg (.binary [1, 0, 1, 97])], [], []⟩ "s" "t").1 =
      .error (.api "Expected send text response") ∧
    (send_text ⟨[.msg (.binary [1, 0, 1, 97])], [], []⟩ "s" "t").1 ≠
      .error (.api "expected send-text response") := by
  decide

/-- C3 amended: a decoded response of the wrong variant makes the
operation return an `Api`-kind error — `Expected send text response`
for `send_text`, `Expected create tab response` for `create_window` and
`create_tab`, `Expected list sessions response` for `list_sessions` and
`get_windows` — and never a typed value of the wrong kind; the taxonomy
has no separate protocol-error kind. -/
theorem c3_tag_mismatch_api_error (c : Conn) (data : List Nat) (rest : List WsEvent)
    (m : ServerOriginatedMessage)
    (hin : c.inbound = WsEvent.msg (WsMessage.binary data) :: rest)
    (hw : c.writes = [])
    (hparse : parse_from_bytes data = .ok m) :
    ((∀ r, m.payload ≠ .send_text_response r) →
      ∀ sid txt, (send_text c sid txt).1 = .error (.api "Expected send text response")) ∧
    ((∀ r, m.payload ≠ .create_tab_response r) →
      (∀ profile, (create_window c profile).1 = .error (.api "Expected create tab response")) ∧
      (∀ profile wid, (create_tab c profile wid).1 = .error (.api "Expected create tab response"))) ∧
    ((∀ r, m.payload ≠ .list_sessions_response r) →
      (list_sessions c).1 = .error (.api "Expected list sessions response") ∧
      (get_windows c).1 = .error (.api "Expected list sessions response")) := by
  obtain ⟨inb, writes, sent⟩ := c
  simp only at hin hw
  subst hin
  subst hw
  obtain ⟨payload⟩ := m
  refine ⟨fun hne sid txt => ?_, fun hne => ⟨fun profile => ?_, fun profile wid => ?_⟩,
    fun hne => ⟨?_, ?_⟩⟩ <;>
    cases payload <;>
      first

      | exact absurd rfl (hne _)
      | simp [send_text, create_window, create_tab, list_sessions, get_windows,
          send_message, receive_message, hparse]

/-- C3 witness: on a concrete create-tab frame, `send_text` returns the
API error `Expected send text response`. -/
theorem c3_tag_mismatch_api_error_witness :
    (send_text ⟨[.msg (.binary [1, 0, 1, 97])], [], []⟩ "s" "t").1 =
      .error (.api "Expected send text response") :=
  (c3_tag_mismatch_api_error ⟨[.msg (.binary [1, 0, 1, 97])], [], []⟩ [1, 0, 1, 97] []
    ⟨.create_tab_response ⟨.OK, "a"⟩⟩ rfl rfl rfl).1 (by intro r h; cases h) "s" "t"

/-- C4: when the endpoint path does not exist, `connect` returns a
connection error whose message names the path and states that the
application must be running with its API server enabled, and the
attempt stops at probing the path: no stream connect, no handshake
write. -/
theorem c4_missing_endpoint (w : ConnectWorld) (h : w.socket_exists = false) :
    (connect w).2 = [ConnectAction.statEndpoint] ∧
    (∀ hs, ConnectAction.handshakeWrite hs ∉ (connect w).2) ∧
    ConnectAction.unixConnect ∉ (connect w).2 ∧
    ∃ msg, (connect w).1 = .error (.connection msg) ∧
      appearsIn (socket_path w.home_dir) msg ∧
      appearsIn "iTerm2 must be running with API server enabled." msg := by
  have htrace : connect w =
      (.error (.connection ("iTerm2 Unix domain socket not found at: " ++
        socket_path w.home_dir ++
        ". iTerm2 must be running with API server enabled.")),
       [.statEndpoint]) := by
    simp [connect, h]
  refine ⟨by rw [htrace], by rw [htrace]; simp, by rw [htrace]; simp,
    "iTerm2 Unix domain socket not found at: " ++ socket_path w.home_dir ++
      ". iTerm2 must be running with API server enabled.", by rw [htrace],
    ⟨"iTerm2 Unix domain socket not found at: ",
      ". iTerm2 must be running with API server enabled.", by simp⟩,
    ⟨"iTerm2 Unix domain socket not found at: " ++ socket_path w.home_dir ++ ". ",
      "", by
        rw [show (". iTerm2 must be running with API server enabled." : String) =
          ". " ++ "iTerm2 must be running with API server enabled." from rfl]
        simp [String.append_assoc]⟩⟩

/-- C4 witness: a concrete world without the socket makes `connect`
stop after the path probe with the connection error naming the path. -/
theorem c4_missing_endpoint_witness :
    (connect ⟨some "/Users/u", false, .ok (), .ok (101, none), [], []⟩).2 =
      [ConnectAction.statEndpoint] ∧
    (∀ hs, ConnectAction.handshakeWrite hs ∉
      (connect ⟨some "/Users/u", false, .ok (), .ok (101, none), [], []⟩).2) ∧
    ConnectAction.unixConnect ∉
      (connect ⟨some "/Users/u", false, .ok (), .ok (101, none), [], []⟩).2 ∧
    ∃ msg, (connect ⟨some "/Users/u", false, .ok (), .ok (101, none), [], []⟩).1 =
        .error (.connection msg) ∧
      appearsIn (socket_path (some "/Users/u")) msg ∧
      appearsIn "iTerm2 must be running with API server enabled." msg :=
  c4_missing_endpoint ⟨some "/Users/u", false, .ok (), .ok (101, none), [], []⟩ rfl

/-- C5: a handshake response with a status other than 101 makes
`connect` fail with a connection error containing that exact numeric
status and the reason phrase (or `Unknown reason` when absent), and
`connect` returns a channel only when the handshake status is 101. -/
theorem c5_handshake_status (w : ConnectWorld) (st : Nat) (reason : Option String)
    (hh : w.handshake = .ok (st, reason)) :
    (w.socket_exists = true → w.unix_connect = .ok () → st ≠ 101 →
      ∃ msg, (connect w).1 = .error (.connection msg) ∧
        appearsIn (toString st) msg ∧
        appearsIn (reason.getD "Unknown reason") msg) ∧
    (∀ ch, (connect w).1 = .ok ch → st = 101) := by
  constructor
  · intro hex hux hne
    refine ⟨"WebSocket handshake failed with status " ++
      statusCodeDisplay st reason ++ ": " ++ reason.getD "Unknown reason" ++
      ". Make sure iTerm2 has \x27Allow all apps to connect\x27 enabled in Settings > General > Magic, or run this script from iTerm2.",
      by simp [connect, hex, hux, hh, hne], ?_, ?_⟩
    · exact ⟨"WebSocket handshake failed with status ",
        " " ++ (reason.getD "<unknown status code>") ++ ": " ++
          reason.getD "Unknown reason" ++
          ". Make sure iTerm2 has \x27Allow all apps to connect\x27 enabled in Settings > General > Magic, or run this script from iTerm2.",
        by simp [statusCodeDisplay, String.append_assoc]⟩
    · exact ⟨"WebSocket handshake failed with status " ++
        statusCodeDisplay st reason ++ ": ",
        ". Make sure iTerm2 has \x27Allow all apps to connect\x27 enabled in Settings > General > Magic, or run this script from iTerm2.",
        by simp [String.append_assoc]⟩
  · intro ch hok
    by_contra hne
    cases hex : w.socket_exists with
    | false => simp [connect, hex] at hok
    | true =>
      cases hux : w.unix_connect with
      | error e => simp [connect, hex, hux] at hok
      | ok u => simp [connect, hex, hux, hh, hne] at hok

/-- C5 witness: a concrete handshake status 404 with reason phrase
`Not Found` makes `connect` fail with a message containing `404` and
`Not Found`. -/
theorem c5_handshake_status_witness :
    (0 : Nat) = 0 ∧
    ∃ msg, (connect ⟨some "/Users/u", true, .ok (), .ok (404, some "Not Found"), [], []⟩).1 =
        .error (.connection msg) ∧
      appearsIn (toString (404 : Nat)) msg ∧
      appearsIn ((some "Not Found").getD "Unknown reason") msg :=
  ⟨rfl, (c5_handshake_status ⟨some "/Users/u", true, .ok (), .ok (404, some "Not Found"), [], []⟩
    404 (some "Not Found") rfl).1 rfl rfl (by decide)⟩

/-- C6: with a credential present the authenticator renders the
cookie-style or key-style header (cookie taking precedence), but the
upgrade request `connect` builds carries only the eight fixed headers,
none of which is an authorization header: the credential never reaches
the handshake, and the only headers a connection attempt ever writes
are that fixed list. -/
theorem c6_connect_ignores_credentials :
    Authenticator.has_credentials (Authenticator.new (some "abc") none) = true ∧
    Authenticator.get_auth_header (Authenticator.new (some "abc") none) =
      some "iTerm2-Auth-Cookie: abc" ∧
    Authenticator.get_auth_header (Authenticator.new (some "abc") (some "k")) =
      some "iTerm2-Auth-Cookie: abc" ∧
    Authenticator.get_auth_header (Authenticator.new none (some "k")) =
      some "iTerm2-Auth-Key: k" ∧
    (∀ p ∈ connectRequestHeaders,
      p.1 ≠ "iTerm2-Auth-Cookie" ∧ p.1 ≠ "iTerm2-Auth-Key" ∧ p.1 ≠ "Authorization") ∧
    (∀ w : ConnectWorld,
      (connect w).2 = [ConnectAction.statEndpoint] ∨
      (connect w).2 = [ConnectAction.statEndpoint, ConnectAction.unixConnect] ∨
      (connect w).2 = [ConnectAction.statEndpoint, ConnectAction.unixConnect,
        ConnectAction.handshakeWrite connectRequestHeaders]) := by
  refine ⟨by decide, by decide, by decide, by decide, by decide, fun w => ?_⟩
  cases hex : w.socket_exists with
  | false => exact Or.inl (by simp [connect, hex])
  | true =>
    cases hux : w.unix_connect with
    | error e => exact Or.inr (Or.inl (by simp [connect, hex, hux]))
    | ok u =>
      refine Or.inr (Or.inr ?_)
      cases hh : w.handshake with
      | error e => simp [connect, hex, hux, hh]
      | ok p =>
        obtain ⟨st, reason⟩ := p
        by_cases h101 : st = 101 <;> simp [connect, hex, hux, hh, h101]

/-- C7 counterexample: on an exhausted transport `receive_message`
reports the message `Connection closed`, not the lower-case
`connection closed` the claim quotes. -/
theorem c7_closed_message_counterexample :
    (receive_message ⟨[], [], []⟩).1 ≠ .error (.connection "connection closed") ∧
    (receive_message ⟨[], [], []⟩).1 = .error (.connection "Connection closed") := by
  decide

/-- C7 amended: once the transport reports end-of-stream the channel is
permanently closed and never returns to Open — the receive observing it
returns the connection error `Connection closed` and leaves the channel
unchanged, so every later receive deterministically does the same; every
subsequent typed operation fails and never returns a success value:
with `Connection closed` from its receive when the dead transport still
accepts the write, or with the write error itself (surfaced as the
websocket error) when the transport rejects the write. -/
theorem c7_closed_stream_permanent (c : Conn) (h : c.inbound = []) :
    ((receive_message c).1 = .error (.connection "Connection closed") ∧
      (receive_message c).2 = c) ∧
    ((c.writes = [] ∨ ∃ wrest, c.writes = none :: wrest) →
      (∀ profile, (create_window c profile).1 =
          .error (.connection "Connection closed") ∧
        (create_window c profile).2.inbound = []) ∧
      (∀ profile wid, (create_tab c profile wid).1 =
          .error (.connection "Connection closed") ∧
        (create_tab c profile wid).2.inbound = []) ∧
      (∀ sid txt, (send_text c sid txt).1 =
          .error (.connection "Connection closed") ∧
        (send_text c sid txt).2.inbound = []) ∧
      ((list_sessions c).1 = .error (.connection "Connection closed") ∧
        (list_sessions c).2.inbound = []) ∧
      ((get_windows c).1 = .error (.connection "Connection closed") ∧
        (get_windows c).2.inbound = [])) ∧
    (∀ e wrest, c.writes = some e :: wrest →
      (∀ profile, (create_window c profile).1 = .error (.webSocket e) ∧
        (create_window c profile).2.inbound = []) ∧
      (∀ profile wid, (create_tab c profile wid).1 = .error (.webSocket e) ∧
        (create_tab c profile wid).2.inbound = []) ∧
      (∀ sid txt, (send_text c sid txt).1 = .error (.webSocket e) ∧
        (send_text c sid txt).2.inbound = []) ∧
      ((list_sessions c).1 = .error (.webSocket e) ∧
        (list_sessions c).2.inbound = []) ∧
      ((get_windows c).1 = .error (.webSocket e) ∧
        (get_windows c).2.inbound = [])) ∧
    (∀ profile v, (create_window c profile).1 ≠ .ok v) ∧
    (∀ profile wid v, (create_tab c profile wid).1 ≠ .ok v) ∧
    (∀ sid txt v, (send_text c sid txt).1 ≠ .ok v) ∧
    (∀ v, (list_sessions c).1 ≠ .ok v) ∧
    (∀ v, (get_windows c).1 ≠ .ok v) := by
  obtain ⟨inb, writes, sent⟩ := c
  simp only at h
  subst h
  refine ⟨⟨rfl, rfl⟩, ?_, ?_, ?_, ?_, ?_, ?_, ?_⟩
  · rintro (hw | ⟨wrest, hw⟩) <;> simp only at hw <;> subst hw <;>
      exact ⟨fun profile => ⟨rfl, rfl⟩, fun profile wid => ⟨rfl, rfl⟩,
        fun sid txt => ⟨rfl, rfl⟩, ⟨rfl, rfl⟩, ⟨rfl, rfl⟩⟩
  · rintro e wrest hw
    simp only at hw
    subst hw
    exact ⟨fun profile => ⟨rfl, rfl⟩, fun profile wid => ⟨rfl, rfl⟩,
      fun sid txt => ⟨rfl, rfl⟩, ⟨rfl, rfl⟩, ⟨rfl, rfl⟩⟩
  · intro profile v hk
    rcases writes with _ | ⟨_ | e, wrest⟩ <;> exact Except.noConfusion hk
  · intro profile wid v hk
    rcases writes with _ | ⟨_ | e, wrest⟩ <;> exact Except.noConfusion hk
  · intro sid txt v hk
    rcases writes with _ | ⟨_ | e, wrest⟩ <;> exact Except.noConfusion hk
  · intro v hk
    rcases writes with _ | ⟨_ | e, wrest⟩ <;> exact Except.noConfusion hk
  · intro v hk
    rcases writes with _ | ⟨_ | e, wrest⟩ <;> exact Except.noConfusion hk

/-- C7 witness: a concrete exhausted channel leaves `receive_message`
at the `Connection closed` error with the state unchanged; on it
`create_window` returns that same error when the transport still
accepts the write, and returns the write error `broken pipe` as the
websocket error when the dead transport rejects the write. -/
theorem c7_closed_stream_permanent_witness :
    ((receive_message ⟨[], [], []⟩).1 = .error (.connection "Connection closed") ∧
      (receive_message ⟨[], [], []⟩).2 = ⟨[], [], []⟩) ∧
    (∀ profile, (create_window ⟨[], [], []⟩ profile).1 =
        .error (.connection "Connection closed") ∧
      (create_window ⟨[], [], []⟩ profile).2.inbound = []) ∧
    (∀ profile, (create_window ⟨[], [some "broken pipe"], []⟩ profile).1 =
        .error (.webSocket "broken pipe") ∧
      (create_window ⟨[], [some "broken pipe"], []⟩ profile).2.inbound = []) :=
  ⟨(c7_closed_stream_permanent ⟨[], [], []⟩ rfl).1,
    ((c7_closed_stream_permanent ⟨[], [], []⟩ rfl).2.1 (Or.inl rfl)).1,
    ((c7_closed_stream_permanent ⟨[], [some "broken pipe"], []⟩ rfl).2.2.1
      "broken pipe" [] rfl).1⟩

/-- C8: a binary frame whose bytes do not decode makes
`receive_message` return the decode error carrying the parse
diagnostic, never a response value; exactly the one frame is consumed,
so nothing is retried. -/
theorem c8_malformed_frame (c : Conn) (data : List Nat) (rest : List WsEvent)
    (e : String)
    (hin : c.inbound = WsEvent.msg (WsMessage.binary data) :: rest)
    (hparse : parse_from_bytes data = .error e) :
    (receive_message c).1 = .error (.protobuf e) ∧
    (receive_message c).2.inbound = rest ∧
    ∀ m, (receive_message c).1 ≠ .ok m := by
  obtain ⟨inb, writes, sent⟩ := c
  simp only at hin
  subst hin
  refine ⟨?_, ?_, ?_⟩
  · simp [receive_message, hparse]
  · simp [receive_message, hparse]
  · intro m
    simp [receive_message, hparse]

/-- C8 witness: the truncated frame `[1, 0]` decodes to the diagnostic
`truncated string field` and `receive_message` surfaces it as the
protobuf-decode error, consuming only that frame. -/
theorem c8_malformed_frame_witness :
    (receive_message ⟨[.msg (.binary [1, 0])], [], []⟩).1 =
      .error (.protobuf "truncated string field") ∧
    (receive_message ⟨[.msg (.binary [1, 0])], [], []⟩).2.inbound = [] ∧
    ∀ m, (receive_message ⟨[.msg (.binary [1, 0])], [], []⟩).1 ≠ .ok m :=
  c8_malformed_frame ⟨[.msg (.binary [1, 0])], [], []⟩ [1, 0] []
    "truncated string field" rfl rfl

/-- C9: on a list-sessions response, `list_sessions` returns exactly the
buried-session list of that response, in order; the windows of the
response are not flattened into the result. -/
theorem c9_list_sessions_buried_only (c : Conn) (data : List Nat)
    (rest : List WsEvent) (r : ListSessionsResponse)
    (hin : c.inbound = WsEvent.msg (WsMessage.binary data) :: rest)
    (hw : c.writes = [])
    (hparse : parse_from_bytes data = .ok ⟨.list_sessions_response r⟩) :
    (list_sessions c).1 = .ok r.buried_sessions := by
  obtain ⟨inb, writes, sent⟩ := c
  simp only at hin hw
  subst hin
  subst hw
  simp [list_sessions, send_message, receive_message, hparse]

/-- C9 witness: a concrete response holding one window with a session
`x` and one buried session `a` makes `list_sessions` return only the
buried session `a`. -/
theorem c9_list_sessions_buried_only_witness :
    (list_sessions ⟨[.msg (.binary [3, 1, 1, 119, 1, 1, 1, 120, 1, 1, 97])], [], []⟩).1 =
      .ok [⟨"a"⟩] :=
  c9_list_sessions_buried_only
    ⟨[.msg (.binary [3, 1, 1, 119, 1, 1, 1, 120, 1, 1, 97])], [], []⟩
    [3, 1, 1, 119, 1, 1, 1, 120, 1, 1, 97] []
    ⟨[⟨"w", [⟨[⟨"x"⟩]⟩]⟩], [⟨"a"⟩]⟩ rfl rfl rfl

/-- C10: a well-formed websocket message that is not a binary frame
makes `receive_message` return a connection error naming the unexpected
message type, never a response value. -/
theorem c10_non_binary_frame (c : Conn) (m : WsMessage) (rest : List WsEvent)
    (hin : c.inbound = WsEvent.msg m :: rest)
    (hnb : ∀ d, m ≠ WsMessage.binary d) :
    (receive_message c).1 =
      .error (.connection ("Unexpected message type: " ++ wsMessageDebug m)) ∧
    appearsIn (wsMessageTypeName m)
      ("Unexpected message type: " ++ wsMessageDebug m) ∧
    ∀ resp, (receive_message c).1 ≠ .ok resp := by
  obtain ⟨inb, writes, sent⟩ := c
  simp only at hin
  subst hin
  cases m with
  | binary d => exact absurd rfl (hnb d)
  | text s =>
    refine ⟨rfl, ⟨"Unexpected message type: ", "(" ++ s ++ ")", ?_⟩,
      fun resp => by simp [receive_message]⟩
    simp only [wsMessageDebug, wsMessageTypeName, ← String.append_assoc]
    rw [show ("Unexpected message type: " ++ "Text(" : String) =
      "Unexpected message type: Text" ++ "(" from rfl]
    rfl
  | ping d =>
    refine ⟨rfl, ⟨"Unexpected message type: ", "(" ++ toString d ++ ")", ?_⟩,
      fun resp => by simp [receive_message]⟩
    simp only [wsMessageDebug, wsMessageTypeName, ← String.append_assoc]
    rw [show ("Unexpected message type: " ++ "Ping(" : String) =
      "Unexpected message type: Ping" ++ "(" from rfl]
    rfl
  | pong d =>
    refine ⟨rfl, ⟨"Unexpected message type: ", "(" ++ toString d ++ ")", ?_⟩,
      fun resp => by simp [receive_message]⟩
    simp only [wsMessageDebug, wsMessageTypeName, ← String.append_assoc]
    rw [show ("Unexpected message type: " ++ "Pong(" : String) =
      "Unexpected message type: Pong" ++ "(" from rfl]
    rfl
  | close =>
    refine ⟨rfl, ⟨"Unexpected message type: ", "(None)", ?_⟩,
      fun resp => by simp [receive_message]⟩
    simp only [wsMessageDebug, wsMessageTypeName]
    rw [show ("Close(None)" : String) = "Close" ++ "(None)" from rfl]
    simp [String.append_assoc]

/-- C10 witness: a concrete text frame makes `receive_message` return
the connection error naming the `Text` message type. -/
theorem c10_non_binary_frame_witness :
    (receive_message ⟨[.msg (.text "hi")], [], []⟩).1 =
      .error (.connection ("Unexpected message type: " ++ wsMessageDebug (.text "hi"))) ∧
    appearsIn (wsMessageTypeName (.text "hi"))
      ("Unexpected message type: " ++ wsMessageDebug (.text "hi")) ∧
    ∀ resp, (receive_message ⟨[.msg (.text "hi")], [], []⟩).1 ≠ .ok resp :=
  c10_non_binary_frame ⟨[.msg (.text "hi")], [], []⟩ (.text "hi") [] rfl
    (fun _ k => WsMessage.noConfusion k)

end ITerm2
